import Mathlib

/-!
Verification of the memory-game server core (willhpkns/my-app).

The repository contains three near-identical implementations of the
session/leaderboard API:

* variant A — `src/app/api/leaderboard/route.ts`, first document
  (Mongo-backed; `initializeGame`, `completeGame`, `submitScore`);
* variant B — `src/app/api/leaderboard/route.ts`, second document
  (in-memory `gameSessions`; `initializeGame`, `recordMove`,
  `completeGame`, `submitScore`);
* variant C — `src/unnamed/part_001`
  (Mongo-backed; `initializeGame`, `makeMove`, `completeGame`,
  `submitScore`).

This file embeds the request handlers as pure Lean functions: the
current time (`Date.now()`), the generated session id (`uuidv4()`),
the random comparator draws of the shuffle, and the backing store are
all passed explicitly.  JS numbers are embedded as `Int`/`Nat`
(all arithmetic here is small-integer exact), JS `undefined` as
`Option.none`, and a JSON response as an `ApiResp` value carrying the
HTTP status together with either the payload or the error string the
code builds.
-/

namespace MemoryGame

/-- HTTP-level result of one handler call: `ok status payload` embeds
`NextResponse.json(payload, { status })` on the success path and
`err status msg` embeds `NextResponse.json({ error: msg }, { status })`. -/
inductive ApiResp (α : Type) where
  | ok (status : Nat) (val : α) : ApiResp α
  | err (status : Nat) (msg : String) : ApiResp α
deriving DecidableEq, Repr

/-- Whether a response is a success response. -/
def isOk {α : Type} : ApiResp α → Bool
  | .ok _ _ => true
  | .err _ _ => false

/-!
## Deck generator

All three variants build the deck as
`[...emojis, ...emojis].sort(() => Math.random() - 0.5)`.
The comparator ignores its arguments and returns a fresh uniform draw,
negative with probability 1/2.  We embed the implementation-defined
comparison sort as an insertion sort in which every comparison consumes
one boolean from an explicit stream `bs` (`true` = the comparator
returned a negative number, i.e. the inserted element stays in front).
When the stream is exhausted the remaining comparisons all answer
`false`; the probabilistic statements only ever use streams long enough
that this case is not reached.
-/

/-- Insert `x` into `l`, consuming one comparator draw per comparison. -/
def insertRand {α : Type} (x : α) : List α → List Bool → List α × List Bool
  | [], bs => ([x], bs)
  | y :: ys, [] => (x :: y :: ys, [])
  | y :: ys, b :: bs =>
    if b then (x :: y :: ys, bs)
    else
      let p := insertRand x ys bs
      (y :: p.1, p.2)

/-- Comparator-driven insertion sort; returns the sorted list and the
unconsumed draws. -/
def randSort {α : Type} : List α → List Bool → List α × List Bool
  | [], bs => ([], bs)
  | x :: xs, bs =>
    let p := randSort xs bs
    insertRand x p.1 p.2

/-- The deck built by `initializeGame`:
`[...emojis, ...emojis].sort(() => Math.random() - 0.5)`. -/
def shuffleDeck (emojis : List String) (bits : List Bool) : List String :=
  (randSort (emojis ++ emojis) bits).1

/-!
## Session records
-/

/-- Variant A `GameSession` (route.ts, first document). -/
structure GameSessionA where
  id : String
  startTime : Int
  cards : List String
  moves : Int
  completed : Bool
  endTime : Option Int
deriving DecidableEq, Repr

/-- Variant C `GameSession` (part_001). -/
structure GameSession where
  id : String
  startTime : Int
  cards : List String
  flippedCards : List Int
  matchedPairs : Nat
  moves : Nat
  completed : Bool
  endTime : Option Int
deriving DecidableEq, Repr

/-- Variant B `GameSession` (route.ts, second document, in-memory). -/
structure GameSessionB where
  id : String
  startTime : Int
  cards : List String
  flippedCards : List Int
  matchedPairs : Nat
  moves : Nat
  completed : Bool
  lastMoveTimestamp : Int
deriving DecidableEq, Repr

/-- A leaderboard document as inserted by the handlers
(`name`, `time`, `moves`, `country`, `date`, `sessionId`). -/
structure LeaderboardEntry where
  name : String
  time : Int
  moves : Int
  country : String
  date : String
  sessionId : String
deriving DecidableEq, Repr

/-- JS array indexing `cards[i]`: `undefined` (`none`) when out of range
or negative.  Note `undefined === undefined` is `true` in JS, matching
`Option` equality on `none`. -/
def jsGet (cards : List String) (i : Int) : Option String :=
  if i < 0 then none else cards.get? i.toNat

/-!
## Variant C: `initializeGame` and `makeMove` (part_001)

`initializeGame` (lines 104–142) decrypts the client-sent emoji list,
shuffles the doubled list and stores the fresh session; the decryption
itself is transport plumbing, so the embedded function receives the
decrypted emoji list directly.
-/

/-- The session document inserted by variant C `initializeGame`
(part_001 lines 122–135). -/
def initSessionC (emojis : List String) (bits : List Bool) (sessionId : String)
    (now : Int) : GameSession :=
  { id := sessionId
    startTime := now
    cards := shuffleDeck emojis bits
    flippedCards := []
    matchedPairs := 0
    moves := 0
    completed := false
    endTime := none }

/-- Outcome of the flipped-card bookkeeping of `makeMove`
(part_001 lines 158–174). -/
structure FlipResult where
  flippedCards : List Int
  matchedPairs : Nat
  moves : Nat
  matchedCardIds : List Int
deriving DecidableEq, Repr

/-- Lines 158–174 of part_001: `updatedFlippedCards` is
`[...session.flippedCards, cardId]`; the code branches on its length
(`> 2` resets to `[cardId]`, `=== 2` compares the two cards, otherwise
it is kept as is).  The length tests are embedded as the equivalent
shape match on `session.flippedCards ++ [cardId]` (the scrutinee is
non-empty, so `[f1]`, `[f1, f2]` and length `≥ 3` are the only cases).
Note the code never rejects a duplicate or out-of-range `cardId`:
`cards[i] === cards[j]` on two `undefined` values is `true`. -/
def flipStep (s : GameSession) (cardId : Int) : FlipResult :=
  match s.flippedCards ++ [cardId] with
  | [f1, f2] =>
    if jsGet s.cards f1 = jsGet s.cards f2 then
      { flippedCards := [], matchedPairs := s.matchedPairs + 1,
        moves := s.moves + 1, matchedCardIds := [f1, f2] }
    else
      { flippedCards := [f1, f2], matchedPairs := s.matchedPairs,
        moves := s.moves + 1, matchedCardIds := [] }
  | [f1] =>
    { flippedCards := [f1], matchedPairs := s.matchedPairs,
      moves := s.moves, matchedCardIds := [] }
  | _ =>
    { flippedCards := [cardId], matchedPairs := s.matchedPairs,
      moves := s.moves, matchedCardIds := [] }

/-- The `gameState` object returned by variant C `makeMove`
(part_001 lines 191–200). -/
structure MoveState where
  flippedCards : List Int
  matchedPairs : Nat
  moves : Nat
  completed : Bool
  matchedCardIds : List Int
deriving DecidableEq, Repr

/-- The state update of an accepted variant C move (part_001 lines
158–189).  `isComplete` embeds
`updatedMatchedPairs === session.cards.length / 2`, which for integer
`matchedPairs` holds exactly when `2 * matchedPairs` equals the length
(JS `/` is exact here).  `endTime` is set only on the completing move.
Returns the updated session and the response `gameState`. -/
def makeMoveS (s : GameSession) (cardId : Int) (now : Int) :
    GameSession × MoveState :=
  let r := flipStep s cardId
  let isComplete : Bool := 2 * r.matchedPairs == s.cards.length
  ({ s with
      flippedCards := r.flippedCards
      matchedPairs := r.matchedPairs
      moves := r.moves
      completed := isComplete
      endTime := if isComplete then some now else none },
   { flippedCards := r.flippedCards
     matchedPairs := r.matchedPairs
     moves := r.moves
     completed := isComplete
     matchedCardIds := r.matchedCardIds })

/-- Variant C `makeMove` on an existing session (part_001 lines
144–205): a completed session is rejected with 400 and no update;
otherwise the move is always accepted.  (The missing-session branch of
the code returns the same error with no store update and is not needed
by the claims.) -/
def makeMove (s : GameSession) (cardId : Int) (now : Int) :
    ApiResp MoveState × GameSession :=
  if s.completed then
    (ApiResp.err 400 "Invalid or completed game session", s)
  else
    let p := makeMoveS s cardId now
    (ApiResp.ok 200 p.2, p.1)

/-- Fold a list of `(cardId, now)` requests through `makeMove`;
rejected requests leave the stored session unchanged, exactly as in the
code. -/
def applyMoves (s : GameSession) (ms : List (Int × Int)) : GameSession :=
  ms.foldl (fun s ct => (makeMove s ct.1 ct.2).2) s

/-- The session reached from a fresh variant C session after a request
sequence. -/
def reachC (emojis : List String) (bits : List Bool) (sid : String) (t0 : Int)
    (ms : List (Int × Int)) : GameSession :=
  applyMoves (initSessionC emojis bits sid t0) ms

/-!
## Variant A: `initializeGame`, `completeGame`, `submitScore`
(route.ts, first document)
-/

/-- The JSON payload returned by `initializeGame`
(`{ sessionId, cards }`). -/
structure InitResp where
  sessionId : String
  cards : List String
deriving DecidableEq, Repr

/-- Variant A `initializeGame` (route.ts lines 106–130): builds the
shuffled deck, stores the fresh session and returns
`{ sessionId, cards: shuffledEmojis }` — the stored deck itself. -/
def initGameA (emojis : List String) (bits : List Bool) (sessionId : String)
    (now : Int) : GameSessionA × InitResp :=
  let shuffledEmojis := shuffleDeck emojis bits
  ({ id := sessionId
     startTime := now
     cards := shuffledEmojis
     moves := 0
     completed := false
     endTime := none },
   { sessionId := sessionId, cards := shuffledEmojis })

/-- The JSON payload returned by `completeGame`
(`{ success, moves, time }`). -/
structure CompleteResp where
  success : Bool
  moves : Int
  time : Int
deriving DecidableEq, Repr

/-- Embeds `session.endTime ? session.endTime - session.startTime : 0`
(route.ts line 154): `undefined` and `0` are both falsy. -/
def storedGameTime (s : GameSessionA) : Int :=
  match s.endTime with
  | some e => if e = 0 then 0 else e - s.startTime
  | none => 0

/-- Variant A `completeGame` (route.ts lines 132–176).  The body check
`!sessionId || !endTime || moves === undefined` is embedded as the
falsiness tests on the two present fields (`moves` is taken as
present).  An already-completed session is answered from the stored
values with no update; otherwise `endTime - session.startTime < 5000`
is rejected as `Suspicious game time` with no update, and an accepted
completion stores the client-claimed `moves` and `endTime`. -/
def completeGameA (session : Option GameSessionA) (sessionId : String)
    (endTime : Int) (moves : Int) : ApiResp CompleteResp × Option GameSessionA :=
  if sessionId = "" ∨ endTime = 0 then
    (ApiResp.err 400 "Invalid request body", session)
  else
    match session with
    | none => (ApiResp.err 400 "Invalid game session", none)
    | some s =>
      if s.completed then
        (ApiResp.ok 200 { success := true, moves := s.moves, time := storedGameTime s },
         some s)
      else
        let gameTime := endTime - s.startTime
        if gameTime < 5000 then
          (ApiResp.err 400 "Suspicious game time", some s)
        else
          (ApiResp.ok 200 { success := true, moves := moves, time := gameTime },
           some { s with completed := true, moves := moves, endTime := some endTime })

/-- Variant A `submitScore` (route.ts lines 178–208).  The handler
validates only field presence (embedded as falsiness of the two
strings), builds the entry from the client-sent `moves` and `time`,
and inserts it.  It never reads the sessions store; the `sessions`
argument is passed to make that visible in the statements. -/
def submitScoreA (sessions : List GameSessionA)
    (leaderboard : List LeaderboardEntry) (sessionId name country : String)
    (moves time : Int) (date : String) :
    ApiResp String × List LeaderboardEntry :=
  if sessionId = "" ∨ name = "" then
    (ApiResp.err 400 "Missing required fields", leaderboard)
  else
    let entry : LeaderboardEntry :=
      { name := name
        time := time
        moves := moves
        country := if country = "" then "🌎" else country
        date := date
        sessionId := sessionId }
    (ApiResp.ok 201 "Score submitted successfully", leaderboard ++ [entry])

/-!
## Variant C: `submitScore` (part_001 lines 246–283)
-/

/-- Variant C `submitScore`: requires the session to exist and be
completed, then computes `time = session.endTime - session.startTime`
from the stored record and inserts the entry with the stored `moves`.
A completed session always carries an `endTime` (`makeMove` and
`completeGame` both set it); the unreachable `none` case is embedded
as `0`. -/
def submitScoreC (sessions : List GameSession)
    (leaderboard : List LeaderboardEntry) (sessionId name country : String)
    (date : String) : ApiResp String × List LeaderboardEntry :=
  if sessionId = "" ∨ name = "" then
    (ApiResp.err 400 "Missing required fields", leaderboard)
  else
    match sessions.find? (fun s => s.id == sessionId) with
    | none => (ApiResp.err 400 "Invalid game session", leaderboard)
    | some s =>
      if s.completed = false then
        (ApiResp.err 400 "Invalid game session", leaderboard)
      else
        let time := (match s.endTime with | some e => e - s.startTime | none => 0)
        let entry : LeaderboardEntry :=
          { name := name
            time := time
            moves := (s.moves : Int)
            country := if country = "" then "🌎" else country
            date := date
            sessionId := sessionId }
        (ApiResp.ok 201 "Score submitted successfully", leaderboard ++ [entry])

/-!
## Variant B: `initializeGame` and `recordMove`
(route.ts, second document)
-/

/-- Variant B `initializeGame` (route.ts second document lines
283–300): stores the shuffled deck and returns
`{ sessionId, cards: shuffledEmojis.map(() => '?') }`. -/
def initGameB (emojis : List String) (bits : List Bool) (sessionId : String)
    (now : Int) : GameSessionB × InitResp :=
  let shuffledEmojis := shuffleDeck emojis bits
  ({ id := sessionId
     startTime := now
     cards := shuffledEmojis
     flippedCards := []
     matchedPairs := 0
     moves := 0
     completed := false
     lastMoveTimestamp := now },
   { sessionId := sessionId, cards := shuffledEmojis.map (fun _ => "?") })

/-- The JSON payload returned by an accepted variant B `recordMove`. -/
structure MoveRespB where
  moves : Nat
  matchedPairs : Nat
  flippedCards : List Int
  completed : Bool
  revealedCards : List String
deriving DecidableEq, Repr

/-- JS `index === flippedCards[k]` where the right side may be
`undefined`: a number never equals `undefined`. -/
def jsEqNum (i : Int) (o : Option Int) : Bool :=
  match o with
  | some j => i == j
  | none => false

/-- Variant B `recordMove` (route.ts second document lines 302–348) on
an existing session.  Order of effects is kept: the completed check,
then the 500 ms cooldown (`now - lastMoveTimestamp < 500` rejects with
status 429 and the constant body `Moving too fast`, before
`lastMoveTimestamp` is updated), then `lastMoveTimestamp := now`, then
the duplicate/overfull flip check (which therefore leaves the updated
timestamp behind), then the push, `moves++` on every accepted flip,
and the pair resolution.  `gameCompleted` is computed only in the
two-flip branch; `revealedCards` reads `session.flippedCards` after it
was already cleared, so the comparison is against `undefined`. -/
def recordMoveB (s : GameSessionB) (cardId : Int) (now : Int) :
    ApiResp MoveRespB × GameSessionB :=
  if s.completed then (ApiResp.err 400 "Invalid game session", s)
  else if now - s.lastMoveTimestamp < 500 then
    (ApiResp.err 429 "Moving too fast", s)
  else
    let s1 := { s with lastMoveTimestamp := now }
    if s1.flippedCards.contains cardId ∨ 2 ≤ s1.flippedCards.length then
      (ApiResp.err 400 "Invalid move", s1)
    else
      let fc := s1.flippedCards ++ [cardId]
      let s2 := { s1 with flippedCards := fc, moves := s1.moves + 1 }
      let step :=
        match fc with
        | [f1, f2] =>
          if jsGet s2.cards f1 = jsGet s2.cards f2 then
            (true, { s2 with matchedPairs := s2.matchedPairs + 1, flippedCards := ([] : List Int) })
          else
            (false, { s2 with flippedCards := ([] : List Int) })
        | _ => (false, s2)
      let matchMade := step.1
      let s3 := step.2
      let gameCompleted : Bool :=
        fc.length == 2 && (2 * s3.matchedPairs == s3.cards.length)
      let s4 := if gameCompleted then { s3 with completed := true } else s3
      (ApiResp.ok 200
        { moves := s4.moves
          matchedPairs := s4.matchedPairs
          flippedCards := s4.flippedCards
          completed := s4.completed
          revealedCards :=
            s4.cards.enum.map (fun p =>
              if matchMade &&
                  (jsEqNum (p.1 : Int) (s4.flippedCards.get? 0) ||
                   jsEqNum (p.1 : Int) (s4.flippedCards.get? 1))
              then p.2 else "?") },
       s4)

/-!
## Leaderboard listing (`GET`)

All variants run
`leaderboard.find().sort({ time: 1 }).limit(10).toArray()` and return
the resulting array directly (no page number, no page count).  The
Mongo single-key ascending sort is embedded as a stable insertion sort
on `time` (Mongo leaves the relative order of ties unspecified;
stability is one concrete refinement of that). -/
def leaderboardGET (entries : List LeaderboardEntry) : List LeaderboardEntry :=
  (List.insertionSort (fun a b => a.time ≤ b.time) entries).take 10

/-- The stored entries `limit(10)` cuts away: the part of the sorted
store beyond the first ten.  Together with `leaderboardGET` it
partitions the store, which is how the returned ten are seen to be the
fastest ones. -/
def leaderboardOmitted (entries : List LeaderboardEntry) : List LeaderboardEntry :=
  (List.insertionSort (fun a b => a.time ≤ b.time) entries).drop 10

/-!
## Auxiliary definitions for the statements
-/

/-- All boolean lists of length `n`: the equiprobable comparator-draw
prefixes of the shuffle.  Sorting four cards consumes at most six
draws, so fixing six makes every sort outcome a function of an
equiprobable sample space of size 64. -/
def allBitLists : Nat → List (List Bool)
  | 0 => [[]]
  | n + 1 => (allBitLists n).map (List.cons true) ++ (allBitLists n).map (List.cons false)

/-- Number of 6-draw comparator samples under which the shuffle of
`emojis` produces exactly `target`. -/
def shuffleCount (emojis : List String) (target : List String) : Nat :=
  ((allBitLists 6).filter (fun bs => shuffleDeck emojis bs == target)).length

/-- The request sequence that flips every listed position twice in a
row (all at server time 0). -/
def doubleFlips (ps : List Int) : List (Int × Int) :=
  ps.flatMap (fun p => [(p, 0), (p, 0)])

/-- Positions `0, …, n-1` as JS numbers. -/
def intRange (n : Nat) : List Int :=
  (List.range n).map Int.ofNat

/-- The state-machine invariant relating `completed` to the matched
count (spec §3): `completed` holds exactly when every pair is matched. -/
def deckInv (s : GameSession) : Prop :=
  s.completed = (2 * s.matchedPairs == s.cards.length)

/-- A not-yet-completed variant A session used to instantiate the
hypotheses of the completion theorems. -/
def sessA : GameSessionA :=
  { id := "s", startTime := 1000, cards := ["a", "a"], moves := 0,
    completed := false, endTime := none }

/-- A completed variant A session used to instantiate the idempotence
theorem. -/
def sessDone : GameSessionA :=
  { id := "s", startTime := 1000, cards := ["a", "a"], moves := 9,
    completed := true, endTime := some 8000 }

/-- A variant C session with one card already flipped. -/
def sessFlip : GameSession :=
  { id := "s", startTime := 0, cards := ["a", "b", "a", "b"],
    flippedCards := [3], matchedPairs := 0, moves := 0, completed := false,
    endTime := none }

/-- A fresh variant B session (last accepted move at time 0). -/
def sessB : GameSessionB :=
  { id := "s", startTime := 0, cards := ["a", "a"], flippedCards := [],
    matchedPairs := 0, moves := 0, completed := false, lastMoveTimestamp := 0 }

/-- Twenty-five stored leaderboard entries with distinct times. -/
def entries25 : List LeaderboardEntry :=
  (List.range 25).map (fun i =>
    { name := "p", time := (i : Int), moves := 0, country := "c",
      date := "d", sessionId := "s" })

instance : IsTotal LeaderboardEntry (fun a b => a.time ≤ b.time) :=
  ⟨fun a b => le_total a.time b.time⟩

instance : IsTrans LeaderboardEntry (fun a b => a.time ≤ b.time) :=
  ⟨fun _ _ _ hab hbc => le_trans hab hbc⟩

/-!
## Basic facts about the shuffle
-/

theorem insertRand_perm {α : Type} (x : α) (l : List α) (bs : List Bool) :
    (insertRand x l bs).1.Perm (x :: l) := by
  induction l generalizing bs with
  | nil => simp [insertRand]
  | cons y ys ih =>
    cases bs with
    | nil => simp [insertRand]
    | cons b bs =>
      simp only [insertRand]
      split
      · exact List.Perm.refl _
      · exact (List.Perm.cons y (ih bs)).trans (List.Perm.swap x y ys)

theorem randSort_perm {α : Type} (l : List α) (bs : List Bool) :
    (randSort l bs).1.Perm l := by
  induction l generalizing bs with
  | nil => simp [randSort]
  | cons x xs ih =>
    simp only [randSort]
    exact (insertRand_perm x (randSort xs bs).1 (randSort xs bs).2).trans
      (List.Perm.cons x (ih bs))

theorem shuffleDeck_perm (emojis : List String) (bits : List Bool) :
    (shuffleDeck emojis bits).Perm (emojis ++ emojis) :=
  randSort_perm (emojis ++ emojis) bits

theorem shuffleDeck_length (emojis : List String) (bits : List Bool) :
    (shuffleDeck emojis bits).length = 2 * emojis.length := by
  rw [(shuffleDeck_perm emojis bits).length_eq, List.length_append]
  omega

/-!
## Claim C1 — score submission
-/

/-- Claim C1: the claim requires `submitScore` to succeed only for an
existing `Completed` session, with `elapsedMs` computed from the
server-recorded timestamps and no client-supplied time or move count
written.  Variant A `submitScore` (route.ts lines 178–208) violates
this: with an empty sessions store — the referenced session does not
exist, let alone is it completed — the call succeeds with status 201
and inserts an entry carrying the client-claimed `time = 1` and
`moves = 42` verbatim.  Variant C `submitScore` (part_001 lines
246–283) rejects the identical request, matching the claim. -/
theorem c1_submitScore_trusts_client :
    submitScoreA [] [] "ghost" "alice" "US" 42 1 "2024-01-01" =
      (ApiResp.ok 201 "Score submitted successfully",
        [{ name := "alice", time := 1, moves := 42, country := "US",
           date := "2024-01-01", sessionId := "ghost" }]) ∧
    submitScoreC [] [] "ghost" "alice" "US" "2024-01-01" =
      (ApiResp.err 400 "Invalid game session", []) := by
  constructor <;> decide

/-!
## Claim C2 — session creation response
-/

/-- Claim C2: the claim says the creation response carries only an
opaque placeholder for the deck.  Variant A `initializeGame` (route.ts
lines 106–130) instead returns the stored shuffled deck itself: its
response `cards` field equals the stored session's `cards` for every
input, and concretely `initializeGame` on the single symbol `D`
answers `["D", "D"]` — the raw symbols of both (unflipped) positions.
Variant B (route.ts second document lines 283–300) conforms, answering
one `"?"` per card. -/
theorem c2_init_returns_raw_deck :
    (∀ (emojis : List String) (bits : List Bool) (sid : String) (now : Int),
      (initGameA emojis bits sid now).2.cards = (initGameA emojis bits sid now).1.cards) ∧
    (initGameA ["D"] [] "s" 0).2.cards = ["D", "D"] ∧
    (∀ (emojis : List String) (bits : List Bool) (sid : String) (now : Int),
      (initGameB emojis bits sid now).2.cards =
        (initGameB emojis bits sid now).1.cards.map (fun _ => "?")) := by
  exact ⟨fun _ _ _ _ => rfl, by decide, fun _ _ _ _ => rfl⟩

/-!
## Claim C6 — deck generator
-/

/-- Claim C6, counterexample to uniformity: the deck is shuffled by
`.sort(() => Math.random() - 0.5)`.  Under the embedded comparator
model (each comparison an independent fair draw, 64 equiprobable
6-draw samples, of which every run of the sort consumes a prefix), a
uniform shuffle of the positions of `["a", "b", "a", "b"]` would give
each of the six card arrangements the same mass, `4/24` each, i.e.
equal counts over the sample space.  The actual counts of
`["a", "a", "b", "b"]` and `["b", "b", "a", "a"]` are 12 and 6 — the
sort-based shuffle is not uniform.  (No comparison procedure flipping
at most six fair bits could be: 64 is not divisible by 6.) -/
theorem c6_counterexample :
    shuffleCount ["a", "b"] ["a", "a", "b", "b"] ≠
      shuffleCount ["a", "b"] ["b", "b", "a", "a"] ∧
    shuffleCount ["a", "b"] ["a", "a", "b", "b"] = 12 ∧
    shuffleCount ["a", "b"] ["b", "b", "a", "a"] = 6 := by
  decide

/-- Claim C6, amended: for every comparator behaviour the generated
deck has length `2N` and contains each of the `N` distinct symbols
exactly twice; the uniformity part of the claim is dropped (see
`c6_counterexample`). -/
theorem c6_deck_composition (emojis : List String) (bits : List Bool)
    (hnd : emojis.Nodup) (a : String) (ha : a ∈ emojis) :
    (shuffleDeck emojis bits).length = 2 * emojis.length ∧
    (shuffleDeck emojis bits).count a = 2 := by
  refine ⟨shuffleDeck_length emojis bits, ?_⟩
  rw [(shuffleDeck_perm emojis bits).count_eq, List.count_append,
    List.count_eq_one_of_mem hnd ha]

/-- Witness for `c6_deck_composition` at the two-symbol set. -/
theorem c6_deck_composition_witness :
    (shuffleDeck ["x", "y"] []).length = 2 * (["x", "y"] : List String).length ∧
    (shuffleDeck ["x", "y"] []).count "x" = 2 :=
  c6_deck_composition ["x", "y"] [] (by decide) "x" (by decide)

/-!
## Claims C3 and C5 — completion
-/

/-- Claim C3: for a completion request on an existing not-yet-completed
session (one that passes the body validation, i.e. a non-zero claimed
end time, and whose server creation timestamp is a real clock value,
`0 ≤ startTime`), a claimed delta below 5000 ms is rejected with the
anti-cheat error and the stored session is unchanged — no completion is
recorded — while a delta of 5001 ms or more is accepted and recorded. -/
theorem c3_completion_threshold (s : GameSessionA) (sid : String)
    (endTime moves : Int) (hsid : sid ≠ "") (hnc : s.completed = false)
    (hstart : 0 ≤ s.startTime) :
    (endTime ≠ 0 → endTime - s.startTime < 5000 →
      completeGameA (some s) sid endTime moves =
        (ApiResp.err 400 "Suspicious game time", some s)) ∧
    (5001 ≤ endTime - s.startTime →
      completeGameA (some s) sid endTime moves =
        (ApiResp.ok 200 { success := true, moves := moves, time := endTime - s.startTime },
         some { s with completed := true, moves := moves, endTime := some endTime })) := by
  constructor
  · intro h0 hlt
    have hva : ¬(sid = "" ∨ endTime = 0) := fun h => h.elim hsid h0
    simp [completeGameA, hva, hnc, hlt]
  · intro hge
    have h0 : endTime ≠ 0 := by omega
    have hva : ¬(sid = "" ∨ endTime = 0) := fun h => h.elim hsid h0
    have hlt : ¬(endTime - s.startTime < 5000) := by omega
    simp [completeGameA, hva, hnc, hlt]

/-- Witness for `c3_completion_threshold`: on `sessA`
(created at server time 1000) the claimed end time 4000 (delta
3000 ms) is rejected without recording, and 7001 (delta 6001 ms) is
accepted. -/
theorem c3_witness :
    completeGameA (some sessA) "s" 4000 7 =
      (ApiResp.err 400 "Suspicious game time", some sessA) ∧
    completeGameA (some sessA) "s" 7001 7 =
      (ApiResp.ok 200 { success := true, moves := 7, time := (7001 : Int) - sessA.startTime },
       some { sessA with completed := true, moves := 7, endTime := some 7001 }) :=
  ⟨(c3_completion_threshold sessA "s" 4000 7 (by decide) rfl (by decide)).1
      (by decide) (by decide),
   (c3_completion_threshold sessA "s" 7001 7 (by decide) rfl (by decide)).2
      (by decide)⟩

/-- Claim C5: `completeGame` on an already-completed session answers
from the previously recorded session — stored `moves` and stored
`endTime - startTime` — mutates nothing, and therefore returns the
same payload no matter which claimed end time and move count the two
calls supply. -/
theorem c5_complete_idempotent (s : GameSessionA) (sid : String)
    (e1 m1 e2 m2 : Int) (hsid : sid ≠ "") (h1 : e1 ≠ 0) (h2 : e2 ≠ 0)
    (hc : s.completed = true) :
    completeGameA (some s) sid e1 m1 =
      (ApiResp.ok 200 { success := true, moves := s.moves, time := storedGameTime s },
       some s) ∧
    completeGameA (some s) sid e1 m1 = completeGameA (some s) sid e2 m2 := by
  have hva1 : ¬(sid = "" ∨ e1 = 0) := fun h => h.elim hsid h1
  have hva2 : ¬(sid = "" ∨ e2 = 0) := fun h => h.elim hsid h2
  constructor
  · simp [completeGameA, hva1, hc]
  · simp [completeGameA, hva1, hva2, hc]

/-- Witness for `c5_complete_idempotent` on the completed session
`sessDone`, with two different claimed end times and move counts. -/
theorem c5_witness :
    completeGameA (some sessDone) "s" 9999 3 =
      (ApiResp.ok 200
        { success := true, moves := sessDone.moves, time := storedGameTime sessDone },
       some sessDone) ∧
    completeGameA (some sessDone) "s" 9999 3 =
      completeGameA (some sessDone) "s" 12345 60 :=
  c5_complete_idempotent sessDone "s" 9999 3 12345 60 (by decide) (by decide)
    (by decide) rfl

/-!
## Claim C8 — move rate limiting
-/

/-- Claim C8, counterexample: the claim requires the rate-limit
rejection to communicate a positive remaining wait time.  The variant B
`recordMove` rejection body is the constant
`{ error: 'Moving too fast' }` with status 429: two requests on the
same session whose remaining waits differ (400 ms left at `now = 100`,
1 ms left at `now = 499`, cooldown 500 ms since the last accepted move
at time 0) receive identical responses, so no component of the
response communicates the remaining wait. -/
theorem c8_counterexample :
    (recordMoveB sessB 1 100).1 = ApiResp.err 429 "Moving too fast" ∧
    (recordMoveB sessB 1 499).1 = (recordMoveB sessB 1 100).1 := by
  decide

/-- Claim C8, amended: a second move within 500 ms of the last accepted
move is rejected with status 429 and the fixed message (no wait hint),
the stored session is untouched by the rejection, and an identical,
otherwise-valid request issued once 500 ms have elapsed since the last
accepted move succeeds.  (Variant C `makeMove` applies no rate limit at
all; the claim's rate-limiting behaviour exists only in variant B.) -/
theorem c8_rate_limit (s : GameSessionB) (c t1 t2 : Int)
    (h1 : t1 - s.lastMoveTimestamp < 500)
    (h2 : 500 ≤ t2 - s.lastMoveTimestamp)
    (hc : s.completed = false)
    (hm : s.flippedCards.contains c = false)
    (hl : s.flippedCards.length < 2) :
    recordMoveB s c t1 = (ApiResp.err 429 "Moving too fast", s) ∧
    isOk (recordMoveB s c t2).1 = true := by
  have h2' : ¬(t2 - s.lastMoveTimestamp < 500) := by omega
  constructor
  · simp [recordMoveB, hc, h1]
  · match hfc : s.flippedCards, hl with
    | [], _ =>
      simp [recordMoveB, hc, h2', hfc, isOk]
    | [x], _ =>
      rw [hfc] at hm
      have hcx : ¬c = x := by simpa using hm
      by_cases hx : jsGet s.cards x = jsGet s.cards c <;>
        simp [recordMoveB, hc, h2', hfc, hcx, hx, isOk]

/-- Witness for `c8_rate_limit` on the fresh session `sessB`. -/
theorem c8_witness :
    recordMoveB sessB 0 100 = (ApiResp.err 429 "Moving too fast", sessB) ∧
    isOk (recordMoveB sessB 0 500).1 = true :=
  c8_rate_limit sessB 0 100 500 (by decide) (by decide) rfl (by decide) (by decide)

/-!
## Claim C9 — leaderboard listing
-/

/-- Claim C9, counterexample: the claim promises a page number, a total
page count of 3 for 25 stored entries, and that concatenating pages
1–3 yields all 25 entries.  The `GET` handler runs
`find().sort({ time: 1 }).limit(10)` and returns the bare array: with
25 stored entries it returns 10 of them, the remaining 15 are
unreachable, and the response carries no page or page-count field (its
type is just the entry list). -/
theorem c9_counterexample :
    (leaderboardGET entries25).length = 10 ∧ entries25.length = 25 := by
  decide

/-- Claim C9, amended: `GET` returns the 10 fastest stored entries —
sorted ascending by `time`, of size `min 10 (number stored)`, and
together with the omitted remainder a permutation of the store in
which every returned entry is at least as fast as every omitted one —
with no pagination (no page number, no `totalPages`, and the omitted
entries never returned; tie order among equal times is the store's
unspecified order, embedded here as stable). -/
theorem c9_sorted_top10 (entries : List LeaderboardEntry) :
    List.Sorted (fun a b => a.time ≤ b.time) (leaderboardGET entries) ∧
    (leaderboardGET entries).length = min 10 entries.length ∧
    leaderboardGET entries ⊆ entries ∧
    (leaderboardGET entries ++ leaderboardOmitted entries).Perm entries ∧
    ∀ e ∈ leaderboardGET entries, ∀ f ∈ leaderboardOmitted entries,
      e.time ≤ f.time := by
  refine ⟨?_, ?_, ?_, ?_, ?_⟩
  · exact List.Pairwise.sublist (List.take_sublist 10 _)
      (List.sorted_insertionSort _ entries)
  · rw [leaderboardGET, List.length_take,
      (List.perm_insertionSort _ entries).length_eq]
  · intro e he
    exact (List.perm_insertionSort _ entries).subset (List.take_subset 10 _ he)
  · rw [leaderboardGET, leaderboardOmitted, List.take_append_drop]
    exact List.perm_insertionSort _ entries
  · have hs := List.sorted_insertionSort (fun a b : LeaderboardEntry => a.time ≤ b.time)
      entries
    rw [← List.take_append_drop 10
      (List.insertionSort (fun a b => a.time ≤ b.time) entries)] at hs
    exact (List.pairwise_append.1 hs).2.2

/-- Witness for `c9_sorted_top10` at the 25-entry store, with the
pointwise bound instantiated at a returned entry (time 0) and an
omitted one (time 24). -/
theorem c9_witness :
    List.Sorted (fun a b => a.time ≤ b.time) (leaderboardGET entries25) ∧
    (leaderboardGET entries25).length = min 10 entries25.length ∧
    leaderboardGET entries25 ⊆ entries25 ∧
    (leaderboardGET entries25 ++ leaderboardOmitted entries25).Perm entries25 ∧
    ({ name := "p", time := 0, moves := 0, country := "c", date := "d",
       sessionId := "s" } : LeaderboardEntry).time ≤
      ({ name := "p", time := 24, moves := 0, country := "c", date := "d",
         sessionId := "s" } : LeaderboardEntry).time :=
  ⟨(c9_sorted_top10 entries25).1, (c9_sorted_top10 entries25).2.1,
   (c9_sorted_top10 entries25).2.2.1, (c9_sorted_top10 entries25).2.2.2.1,
   (c9_sorted_top10 entries25).2.2.2.2 _ (by decide) _ (by decide)⟩

/-!
## Step lemmas for the variant C state machine
-/

theorem flipStep_matchedPairs (s : GameSession) (c : Int) :
    (flipStep s c).matchedPairs = s.matchedPairs ∨
    (flipStep s c).matchedPairs = s.matchedPairs + 1 := by
  rcases hfc : s.flippedCards with _ | ⟨x, _ | ⟨y, l⟩⟩
  · simp [flipStep, hfc]
  · by_cases h : jsGet s.cards x = jsGet s.cards c <;> simp [flipStep, hfc, h]
  · cases l <;> simp [flipStep, hfc]

theorem flipStep_moves (s : GameSession) (c : Int) :
    (flipStep s c).moves =
      if s.flippedCards.length = 1 then s.moves + 1 else s.moves := by
  rcases hfc : s.flippedCards with _ | ⟨x, _ | ⟨y, l⟩⟩
  · simp [flipStep, hfc]
  · by_cases h : jsGet s.cards x = jsGet s.cards c <;> simp [flipStep, hfc, h]
  · cases l <;> simp [flipStep, hfc]

theorem makeMoveS_cards (s : GameSession) (c t : Int) :
    ((makeMoveS s c t).1).cards = s.cards := rfl

theorem makeMoveS_matchedPairs (s : GameSession) (c t : Int) :
    ((makeMoveS s c t).1).matchedPairs = (flipStep s c).matchedPairs := rfl

theorem makeMoveS_moves (s : GameSession) (c t : Int) :
    ((makeMoveS s c t).1).moves = (flipStep s c).moves := rfl

theorem makeMoveS_completed (s : GameSession) (c t : Int) :
    ((makeMoveS s c t).1).completed =
      (2 * ((makeMoveS s c t).1).matchedPairs == s.cards.length) := rfl

theorem makeMove_of_completed (s : GameSession) (c t : Int)
    (h : s.completed = true) :
    makeMove s c t = (ApiResp.err 400 "Invalid or completed game session", s) := by
  simp [makeMove, h]

theorem makeMove_state_of_active (s : GameSession) (c t : Int)
    (h : s.completed = false) :
    (makeMove s c t).2 = (makeMoveS s c t).1 := by
  simp [makeMove, h]

theorem makeMove_cards (s : GameSession) (c t : Int) :
    ((makeMove s c t).2).cards = s.cards := by
  cases h : s.completed
  · rw [makeMove_state_of_active s c t h, makeMoveS_cards]
  · rw [makeMove_of_completed s c t h]

theorem makeMove_matchedPairs_mono (s : GameSession) (c t : Int) :
    s.matchedPairs ≤ ((makeMove s c t).2).matchedPairs := by
  cases h : s.completed
  · rw [makeMove_state_of_active s c t h, makeMoveS_matchedPairs]
    rcases flipStep_matchedPairs s c with h2 | h2 <;> omega
  · rw [makeMove_of_completed s c t h]

theorem makeMove_moves_mono (s : GameSession) (c t : Int) :
    s.moves ≤ ((makeMove s c t).2).moves := by
  cases h : s.completed
  · rw [makeMove_state_of_active s c t h, makeMoveS_moves, flipStep_moves]
    split <;> omega
  · rw [makeMove_of_completed s c t h]

theorem makeMove_inv (s : GameSession) (c t : Int) (h : deckInv s) :
    deckInv ((makeMove s c t).2) := by
  cases hb : s.completed
  · unfold deckInv
    rw [makeMove_state_of_active s c t hb, makeMoveS_cards]
    exact makeMoveS_completed s c t
  · rw [makeMove_of_completed s c t hb]
    exact h

theorem applyMoves_cons (s : GameSession) (m : Int × Int)
    (ms : List (Int × Int)) :
    applyMoves s (m :: ms) = applyMoves ((makeMove s m.1 m.2).2) ms := rfl

theorem applyMoves_append (s : GameSession) (l1 l2 : List (Int × Int)) :
    applyMoves s (l1 ++ l2) = applyMoves (applyMoves s l1) l2 := by
  simp [applyMoves, List.foldl_append]

theorem applyMoves_inv (ms : List (Int × Int)) :
    ∀ s : GameSession, deckInv s → deckInv (applyMoves s ms) := by
  induction ms with
  | nil => exact fun s h => h
  | cons m ms ih => exact fun s h => ih _ (makeMove_inv s m.1 m.2 h)

theorem applyMoves_cards (ms : List (Int × Int)) :
    ∀ s : GameSession, (applyMoves s ms).cards = s.cards := by
  induction ms with
  | nil => exact fun s => rfl
  | cons m ms ih => exact fun s => (ih _).trans (makeMove_cards s m.1 m.2)

theorem applyMoves_moves_mono (ms : List (Int × Int)) :
    ∀ s : GameSession, s.moves ≤ (applyMoves s ms).moves := by
  induction ms with
  | nil => exact fun s => le_refl _
  | cons m ms ih =>
    exact fun s => le_trans (makeMove_moves_mono s m.1 m.2) (ih _)

theorem applyMoves_of_completed (ms : List (Int × Int)) :
    ∀ s : GameSession, s.completed = true → applyMoves s ms = s := by
  induction ms with
  | nil => exact fun s _ => rfl
  | cons m ms ih =>
    intro s h
    rw [applyMoves_cons, makeMove_of_completed s m.1 m.2 h]
    exact ih s h

/-- A fresh variant C session satisfies the completion invariant: the
deck of a non-empty symbol list is non-empty, so `0` matched pairs is
not all of them. -/
theorem initSessionC_inv (emojis : List String) (bits : List Bool)
    (sid : String) (t0 : Int) (h : emojis ≠ []) :
    deckInv (initSessionC emojis bits sid t0) := by
  unfold deckInv initSessionC
  have hlen := shuffleDeck_length emojis bits
  have hpos : emojis.length ≠ 0 := fun hz => h (List.length_eq_zero.1 hz)
  symm
  rw [beq_eq_false_iff_ne]
  simp only []
  omega

theorem intRange_length (n : Nat) : (intRange n).length = n := by
  rw [intRange, List.length_map, List.length_range]

/-- Flipping the same position `p` twice from a pair-free,
not-yet-complete state is accepted as a self-match: the session gains
one matched pair and one move, and completes exactly when that pair
was the last one. -/
theorem double_flip_eq (s : GameSession) (p : Int) (h0 : s.flippedCards = [])
    (hnc : s.completed = false) (hne : 2 * s.matchedPairs ≠ s.cards.length) :
    applyMoves s [(p, 0), (p, 0)] =
      { s with
          flippedCards := []
          matchedPairs := s.matchedPairs + 1
          moves := s.moves + 1
          completed := (2 * (s.matchedPairs + 1) == s.cards.length)
          endTime :=
            if (2 * (s.matchedPairs + 1) == s.cards.length) = true
            then some 0 else none } := by
  have hb : (2 * s.matchedPairs == s.cards.length) = false := by
    rw [beq_eq_false_iff_ne]; exact hne
  simp [applyMoves, makeMove, makeMoveS, flipStep, h0, hnc, hb]

/-- Driving a pair-free session through `doubleFlips ps`: every double
flip self-matches, so the matched count grows by one per listed
position as long as pairs remain. -/
theorem drive_double (ps : List Int) : ∀ s : GameSession,
    s.flippedCards = [] → deckInv s →
    2 * (s.matchedPairs + ps.length) ≤ s.cards.length →
    (applyMoves s (doubleFlips ps)).matchedPairs = s.matchedPairs + ps.length ∧
    (applyMoves s (doubleFlips ps)).flippedCards = [] ∧
    deckInv (applyMoves s (doubleFlips ps)) ∧
    (applyMoves s (doubleFlips ps)).cards = s.cards := by
  induction ps with
  | nil =>
    intro s h0 hinv _
    exact ⟨rfl, h0, hinv, rfl⟩
  | cons p rest ih =>
    intro s h0 hinv hb
    simp only [List.length_cons] at hb
    have hne : 2 * s.matchedPairs ≠ s.cards.length := by omega
    have hnc : s.completed = false := by
      rw [hinv, beq_eq_false_iff_ne]
      exact hne
    have hsplit : doubleFlips (p :: rest) =
        ([(p, 0), (p, 0)] : List (Int × Int)) ++ doubleFlips rest := by
      simp [doubleFlips]
    rw [hsplit, applyMoves_append, double_flip_eq s p h0 hnc hne]
    obtain ⟨ha, hfl, hinv2, hcards⟩ :=
      ih { s with
            flippedCards := []
            matchedPairs := s.matchedPairs + 1
            moves := s.moves + 1
            completed := (2 * (s.matchedPairs + 1) == s.cards.length)
            endTime :=
              if (2 * (s.matchedPairs + 1) == s.cards.length) = true
              then some 0 else none }
        rfl rfl (by simp only []; omega)
    refine ⟨?_, hfl, hinv2, by rw [hcards]⟩
    rw [ha]
    show s.matchedPairs + 1 + rest.length = s.matchedPairs + (p :: rest).length
    simp only [List.length_cons]
    omega

/-!
## Claim C4 — matched-count invariant
-/

/-- Claim C4: on every session reachable from a fresh variant C session
(non-empty symbol list) by any request sequence, `completed` holds
exactly when the matched count is half the deck length, and the matched
count never decreases on any further move. -/
theorem c4_matched_invariant (emojis : List String) (bits : List Bool)
    (sid : String) (t0 : Int) (ms : List (Int × Int)) (h : emojis ≠ []) :
    ((reachC emojis bits sid t0 ms).completed = true ↔
      2 * (reachC emojis bits sid t0 ms).matchedPairs =
        (reachC emojis bits sid t0 ms).cards.length) ∧
    ∀ c t : Int,
      (reachC emojis bits sid t0 ms).matchedPairs ≤
        ((makeMove (reachC emojis bits sid t0 ms) c t).2).matchedPairs := by
  have hinv : deckInv (reachC emojis bits sid t0 ms) :=
    applyMoves_inv ms _ (initSessionC_inv emojis bits sid t0 h)
  constructor
  · rw [deckInv] at hinv
    rw [hinv]
    exact beq_iff_eq
  · exact fun c t => makeMove_matchedPairs_mono _ c t

/-- Witness for `c4_matched_invariant`: the single-symbol game after
flipping position 0 twice. -/
theorem c4_witness :
    ((reachC ["a"] [] "s" 0 [(0, 1), (0, 2)]).completed = true ↔
      2 * (reachC ["a"] [] "s" 0 [(0, 1), (0, 2)]).matchedPairs =
        (reachC ["a"] [] "s" 0 [(0, 1), (0, 2)]).cards.length) ∧
    (reachC ["a"] [] "s" 0 [(0, 1), (0, 2)]).matchedPairs ≤
      ((makeMove (reachC ["a"] [] "s" 0 [(0, 1), (0, 2)]) 0 3).2).matchedPairs :=
  ⟨(c4_matched_invariant ["a"] [] "s" 0 [(0, 1), (0, 2)] (by decide)).1,
   (c4_matched_invariant ["a"] [] "s" 0 [(0, 1), (0, 2)] (by decide)).2 0 3⟩

/-!
## Claim C7 — move counting
-/

/-- Claim C7: an accepted variant C flip increments the stored move
count exactly when it is the second flip of a pair (the pending-pair
list had length one) and leaves it unchanged on a first flip (pending
list empty, or full from an unresolved mismatch); over any request
sequence the move count never decreases. -/
theorem c7_move_counting (s : GameSession) (c t : Int)
    (ms : List (Int × Int)) (h : s.completed = false) :
    ((makeMove s c t).2.moves =
      if s.flippedCards.length = 1 then s.moves + 1 else s.moves) ∧
    s.moves ≤ (applyMoves s ms).moves := by
  constructor
  · rw [makeMove_state_of_active s c t h, makeMoveS_moves, flipStep_moves]
  · exact applyMoves_moves_mono ms s

/-- Witness for `c7_move_counting`: `sessFlip` has one pending flip, so
the next accepted flip completes a pair and increments `moves`. -/
theorem c7_witness :
    ((makeMove sessFlip 3 5).2.moves =
      if sessFlip.flippedCards.length = 1 then sessFlip.moves + 1
      else sessFlip.moves) ∧
    sessFlip.moves ≤ (applyMoves sessFlip [(0, 1), (1, 2)]).moves :=
  c7_move_counting sessFlip 3 5 [(0, 1), (1, 2)] rfl

/-!
## Claim C10 — self-match exploit
-/

/-- Claim C10: with exactly one card pending, resubmitting the same
position is accepted and counted as a match (`cards[p] === cards[p]`),
incrementing the matched count; consequently a caller completes any
fresh game (non-empty symbol list) by flipping each position twice in
succession, never matching two distinct cards. -/
theorem c10_self_match (s : GameSession) (p t : Int) (emojis : List String)
    (bits : List Bool) (sid : String) (t0 : Int)
    (h1 : s.completed = false) (h2 : s.flippedCards = [p])
    (h3 : emojis ≠ []) :
    isOk (makeMove s p t).1 = true ∧
    (makeMove s p t).2.matchedPairs = s.matchedPairs + 1 ∧
    (reachC emojis bits sid t0
      (doubleFlips (intRange (2 * emojis.length)))).completed = true := by
  refine ⟨by simp [makeMove, h1, isOk], ?_, ?_⟩
  · rw [makeMove_state_of_active s p t h1, makeMoveS_matchedPairs]
    simp [flipStep, h2]
  · have hN : emojis.length ≠ 0 := fun hz => h3 (List.length_eq_zero.1 hz)
    have htake : (intRange (2 * emojis.length)).take emojis.length =
        intRange emojis.length := by
      rw [intRange, intRange, ← List.map_take, List.take_range,
        Nat.min_eq_left (by omega : emojis.length ≤ 2 * emojis.length)]
    have hdec : intRange (2 * emojis.length) =
        (intRange (2 * emojis.length)).take emojis.length ++
          (intRange (2 * emojis.length)).drop emojis.length :=
      (List.take_append_drop _ _).symm
    rw [reachC, hdec, htake]
    have hflat : doubleFlips (intRange emojis.length ++
        (intRange (2 * emojis.length)).drop emojis.length) =
        doubleFlips (intRange emojis.length) ++
          doubleFlips ((intRange (2 * emojis.length)).drop emojis.length) := by
      simp [doubleFlips]
    rw [hflat, applyMoves_append]
    have hlen : (initSessionC emojis bits sid t0).cards.length =
        2 * emojis.length := shuffleDeck_length emojis bits
    obtain ⟨ha, _, hinv2, hcards⟩ :=
      drive_double (intRange emojis.length) (initSessionC emojis bits sid t0)
        rfl (initSessionC_inv emojis bits sid t0 h3)
        (by rw [intRange_length, hlen]; simp [initSessionC])
    have hdone : (applyMoves (initSessionC emojis bits sid t0)
        (doubleFlips (intRange emojis.length))).completed = true := by
      rw [hinv2, ha, intRange_length, hcards, hlen]
      simp [initSessionC]
    rw [applyMoves_of_completed _ _ hdone, hdone]

/-- Witness for `c10_self_match`: `sessFlip` (one pending flip at
position 3) self-matches, and the two-symbol game completes after
flipping positions 0–3 each twice. -/
theorem c10_witness :
    isOk (makeMove sessFlip 3 9).1 = true ∧
    (makeMove sessFlip 3 9).2.matchedPairs = sessFlip.matchedPairs + 1 ∧
    (reachC ["a", "b"] [] "s" 0
      (doubleFlips (intRange (2 * (["a", "b"] : List String).length)))).completed =
      true :=
  c10_self_match sessFlip 3 9 ["a", "b"] [] "s" 0 rfl rfl (by decide)

end MemoryGame
